import Mathlib

/-!
Verification of the angular-migration-tool repository: a shallow embedding of
the migration orchestrator (`src/migration/orchestrator.ts`), the dependency
conflict resolver (`src/migration/dependencies.ts`), the migration analyzer
(`src/migration/detector.ts`) and the version table (`src/migration/versions.ts`),
together with theorems settling the specification claims.

Modelling conventions:
* Concrete package versions are naturals (the external semver library's string
  parsing/coercion is abstracted away: `semver.coerce` is the identity on the
  already-parsed version).  Semver ranges are modelled as closed intervals of
  naturals; `semver.satisfies` and `semver.intersects` are the corresponding
  interval operations.  All repository logic is translated as-is on top of
  this model of the external `semver` collaborator.
* The npm registry (`npm view` calls in `getPackageInfo` / `getAvailableVersions`)
  is an external process; it is modelled by a `Registry` record of total
  functions.  `getAvailableVersions` returns versions in registry-reported
  order, oldest first, exactly as the code assumes when it calls `.reverse()`.
* `getInstalledVersion` (reading `node_modules/<pkg>/package.json`) is modelled
  by a function `installed : String → Option Nat`.
* File-system side effects (install processes, backups) are modelled by
  explicit state values / outcome parameters.
-/

/-- Model of a semver range declared by a package (external `semver` library):
a closed interval of versions. -/
structure SemverRange where
  lo : Nat
  hi : Nat
deriving DecidableEq, Repr

/-- Model of `semver.satisfies(version, range)`. -/
def semverSatisfies (v : Nat) (r : SemverRange) : Bool :=
  decide (r.lo ≤ v ∧ v ≤ r.hi)

/-- Model of `semver.intersects(range1, range2)`: the two intervals overlap. -/
def semverIntersects (r1 r2 : SemverRange) : Bool :=
  decide (max r1.lo r2.lo ≤ min r1.hi r2.hi)

/-- Model of the npm registry consulted through `execSync('npm view ...')` in
`getPackageInfo` and `getAvailableVersions`: peer-dependency declarations per
package/version, and the available-version list (oldest first, as the code
assumes when reversing it). -/
structure Registry where
  peerDeps : String → Nat → List (String × SemverRange)
  availableVersions : String → List Nat

/-- `DependencyVersion` from `versions.ts` (the `version` field, a range string
in the source, is abstracted to the version it denotes). -/
structure DependencyVersion where
  name : String
  version : Nat
  dev : Bool := false
deriving DecidableEq, Repr

/-- `PackageManager['name']` from `dependencies.ts`. -/
inductive PMName
  | npm
  | yarn
  | pnpm
deriving DecidableEq, Repr

/-- One entry of `PeerDependencyConflict.conflictingRequirements`: the field
`version` holds the competing owner's declared range, `satisfied` the result of
`semver.intersects(peerRange, otherRange)`. -/
structure ConflictingRequirement where
  requiredBy : String
  version : SemverRange
  satisfied : Bool
deriving DecidableEq, Repr

/-- `PeerDependencyConflict.resolutionStrategy` from `dependencies.ts`. -/
inductive ResolutionStrategy
  | upgrade
  | downgrade
  | overrides
  | manual
deriving DecidableEq, Repr

/-- `PeerDependencyConflict` from `dependencies.ts`. -/
structure PeerDependencyConflict where
  packageName : String
  requiredBy : List String
  currentVersion : Option Nat
  conflictingRequirements : List ConflictingRequirement
  resolutionStrategy : ResolutionStrategy
  recommendedVersion : Option Nat
  reasoning : String
deriving DecidableEq, Repr

/-- `ConflictResolution` from `dependencies.ts`, with the nested `resolutions`
object flattened into fields (maps modelled as association lists). -/
structure ConflictResolution where
  conflicts : List PeerDependencyConflict
  packageOverrides : List (String × Nat)
  dependencyUpdates : List (String × Nat)
  warnings : List String
  manualSteps : List String
  canAutoResolve : Bool
deriving DecidableEq, Repr

/-- `findConflictingRequirements` from `dependencies.ts`: scan every current
dependency, look up its declared peer requirement on `peerName` in the
registry, and record whether that range intersects `peerRange`. -/
def findConflictingRequirements (reg : Registry) (peerName : String)
    (peerRange : SemverRange) (currentDeps : List (String × Nat)) :
    List ConflictingRequirement :=
  currentDeps.filterMap fun dep =>
    match (reg.peerDeps dep.1 dep.2).lookup peerName with
    | some otherRange =>
        some { requiredBy := dep.1
               version := otherRange
               satisfied := semverIntersects peerRange otherRange }
    | none => none

/-- `findVersionIntersection` from `dependencies.ts`: reverse the registry's
version list (so highest versions come first) and return the first version
satisfying every range. -/
def findVersionIntersection (reg : Registry) (packageName : String)
    (ranges : List SemverRange) : Option Nat :=
  (reg.availableVersions packageName).reverse.find? fun v =>
    ranges.all fun range => semverSatisfies v range

/-- `findBestVersion` from `dependencies.ts`: the intersection if one exists,
otherwise the highest available version satisfying the primary range only. -/
def findBestVersion (reg : Registry) (packageName : String)
    (primaryRange : SemverRange)
    (conflictingRequirements : List ConflictingRequirement) : Option Nat :=
  let allRanges := primaryRange :: conflictingRequirements.map (·.version)
  match findVersionIntersection reg packageName allRanges with
  | some v => some v
  | none =>
      let satisfyingVersions :=
        (reg.availableVersions packageName).filter fun v =>
          semverSatisfies v primaryRange
      satisfyingVersions.getLast?

/-- `determineResolutionStrategy` from `dependencies.ts`. -/
def determineResolutionStrategy (reg : Registry) (pm : PMName)
    (packageName : String) (requiredRange : SemverRange)
    (conflictingRequirements : List ConflictingRequirement) :
    ResolutionStrategy :=
  if conflictingRequirements.isEmpty then
    ResolutionStrategy.upgrade
  else
    let allRanges := requiredRange :: conflictingRequirements.map (·.version)
    match findVersionIntersection reg packageName allRanges with
    | some _ => ResolutionStrategy.upgrade
    | none =>
        let canUseOverrides := pm = PMName.npm ∨ pm = PMName.yarn
        if canUseOverrides then ResolutionStrategy.overrides
        else ResolutionStrategy.manual

/-- `generateResolutionReasoning` from `dependencies.ts` (the interpolated
range text is elided from the strings, which the claims do not inspect). -/
def generateResolutionReasoning (packageName : String)
    (_peerRange : SemverRange)
    (conflictingRequirements : List ConflictingRequirement) : String :=
  if conflictingRequirements.isEmpty then
    "Need to install " ++ packageName
  else
    let unsatisfied := conflictingRequirements.filter fun req => !req.satisfied
    if unsatisfied.isEmpty then
      "All requirements for " ++ packageName ++ " can be satisfied"
    else
      packageName ++ " has conflicting version requirements from: " ++
        String.intercalate ", " (unsatisfied.map (·.requiredBy))

/-- `versionSatisfiesRange` from `dependencies.ts` (`semver.coerce` is the
identity in the natural-number version model, so this is `semver.satisfies`). -/
def versionSatisfiesRange (v : Nat) (r : SemverRange) : Bool :=
  semverSatisfies v r

/-- The conflict record built at the push site inside `checkPeerDependencies`. -/
def mkPeerConflict (reg : Registry) (pm : PMName)
    (installed : String → Option Nat) (dependencyName : String)
    (currentDeps : List (String × Nat)) (peerName : String)
    (peerRange : SemverRange) : PeerDependencyConflict :=
  let conflictingRequirements :=
    findConflictingRequirements reg peerName peerRange currentDeps
  { packageName := peerName
    requiredBy := [dependencyName]
    currentVersion := installed peerName
    conflictingRequirements := conflictingRequirements
    resolutionStrategy :=
      determineResolutionStrategy reg pm peerName peerRange
        conflictingRequirements
    recommendedVersion :=
      findBestVersion reg peerName peerRange conflictingRequirements
    reasoning :=
      generateResolutionReasoning peerName peerRange conflictingRequirements }

/-- The guard deciding whether `checkPeerDependencies` records a conflict for
one peer entry: `hasRealConflict || (conflictingRequirements.length > 0 &&
conflictingRequirements.some(req => !req.satisfied))`. -/
def conflictGuard (currentVersion : Option Nat) (peerRange : SemverRange)
    (conflictingRequirements : List ConflictingRequirement) : Bool :=
  let hasRealConflict :=
    currentVersion.isSome &&
    !(match currentVersion with
      | some cv => versionSatisfiesRange cv peerRange
      | none => false) &&
    conflictingRequirements.any fun req => !req.satisfied
  hasRealConflict ||
    (decide (conflictingRequirements.length > 0) &&
      conflictingRequirements.any fun req => !req.satisfied)

/-- `checkPeerDependencies` from `dependencies.ts`: for each peer requirement
of the target dependency, detect competing requirements among current
dependencies and record a conflict when the guard fires. -/
def checkPeerDependencies (reg : Registry) (pm : PMName)
    (installed : String → Option Nat) (dependency : DependencyVersion)
    (currentDeps : List (String × Nat)) : List PeerDependencyConflict :=
  (reg.peerDeps dependency.name dependency.version).filterMap fun peer =>
    let currentVersion := currentDeps.lookup peer.1
    let conflictingRequirements :=
      findConflictingRequirements reg peer.1 peer.2 currentDeps
    if conflictGuard currentVersion peer.2 conflictingRequirements then
      some (mkPeerConflict reg pm installed dependency.name currentDeps
        peer.1 peer.2)
    else
      none

/-- `generateConflictResolution` from `dependencies.ts`: fold each conflict's
strategy into the resolution plan (the `currentDeps` argument is unused in the
source as well). -/
def generateConflictResolution (conflicts : List PeerDependencyConflict)
    (_currentDeps : List (String × Nat)) : ConflictResolution :=
  let base : ConflictResolution :=
    { conflicts := conflicts
      packageOverrides := []
      dependencyUpdates := []
      warnings := []
      manualSteps := []
      canAutoResolve := true }
  let res := conflicts.foldl (fun acc c =>
    match c.resolutionStrategy with
    | ResolutionStrategy.upgrade | ResolutionStrategy.downgrade =>
        match c.recommendedVersion with
        | some v =>
            { acc with dependencyUpdates :=
                acc.dependencyUpdates ++ [(c.packageName, v)] }
        | none => acc
    | ResolutionStrategy.overrides =>
        match c.recommendedVersion with
        | some v =>
            { acc with packageOverrides :=
                acc.packageOverrides ++ [(c.packageName, v)] }
        | none => acc
    | ResolutionStrategy.manual =>
        { acc with
          canAutoResolve := false
          manualSteps := acc.manualSteps ++
            ["Manual resolution required for " ++ c.packageName ++ ": " ++
              c.reasoning] }) base
  if res.packageOverrides.length > 0 then
    { res with warnings := res.warnings ++
        ["Using package overrides/resolutions to resolve conflicts. Test thoroughly."] }
  else
    res

/-- `BreakingChange.impact` from `versions.ts`. -/
inductive Impact
  | high
  | medium
  | low
deriving DecidableEq, Repr

/-- `BreakingChange` from `versions.ts` (an absent `manualSteps` array is
modelled as the empty list; `join` of an empty array and an absent array both
fall through to the default description in the orchestrator). -/
structure BreakingChange where
  id : String
  description : String
  impact : Impact
  autoFixable : Bool
  codemodName : Option String := none
  manualSteps : List String := []
deriving DecidableEq, Repr

/-- `MigrationPath` from `versions.ts` (`from`/`to` are Lean keywords, hence
`fromVer`/`toVer`). -/
structure MigrationPath where
  fromVer : Nat
  toVer : Nat
  name : String
  description : String
  dependencies : List DependencyVersion
  devDependencies : List DependencyVersion
  peerDependencies : List DependencyVersion
  breakingChanges : List BreakingChange
  preMigrationTasks : List String := []
  postMigrationTasks : List String := []
  ngUpdateCommands : List String
deriving DecidableEq, Repr

/-- The `17-18` entry of `ANGULAR_MIGRATIONS` (dependency range strings such
as `^18.2.0` are abstracted to the major version they denote). -/
def migration17to18 : MigrationPath :=
  { fromVer := 17
    toVer := 18
    name := "Angular 17 to 18"
    description := "Migration from Angular 17 to Angular 18 with Material Design 3, built-in control flow, and event replay"
    dependencies :=
      [ { name := "@angular/animations", version := 18 }
      , { name := "@angular/common", version := 18 }
      , { name := "@angular/compiler", version := 18 }
      , { name := "@angular/core", version := 18 }
      , { name := "@angular/forms", version := 18 }
      , { name := "@angular/platform-browser", version := 18 }
      , { name := "@angular/platform-browser-dynamic", version := 18 }
      , { name := "@angular/router", version := 18 }
      , { name := "@angular/service-worker", version := 18 }
      , { name := "@angular/material", version := 18 }
      , { name := "@angular/cdk", version := 18 }
      , { name := "rxjs", version := 7 }
      , { name := "tslib", version := 2 }
      , { name := "zone.js", version := 0 } ]
    devDependencies :=
      [ { name := "@angular-devkit/build-angular", version := 18 }
      , { name := "@angular/cli", version := 18 }
      , { name := "@angular/compiler-cli", version := 18 }
      , { name := "@types/jasmine", version := 5 }
      , { name := "jasmine-core", version := 5 }
      , { name := "karma", version := 6 }
      , { name := "karma-chrome-launcher", version := 3 }
      , { name := "karma-coverage", version := 2 }
      , { name := "karma-jasmine", version := 5 }
      , { name := "karma-jasmine-html-reporter", version := 2 }
      , { name := "typescript", version := 5 } ]
    peerDependencies := []
    breakingChanges :=
      [ { id := "ng18-control-flow"
          description := "Migrate to built-in control flow (@if, @for, @switch)"
          impact := Impact.medium
          autoFixable := true
          codemodName := some "controlFlowMigration"
          manualSteps := ["Review migrated control flow syntax", "Test template rendering"] }
      , { id := "ng18-material3"
          description := "Update Angular Material to Material Design 3 (M3)"
          impact := Impact.high
          autoFixable := false
          manualSteps :=
            [ "Update Material theme configuration"
            , "Review color system changes"
            , "Update custom component styles"
            , "Test Material component appearance" ] }
      , { id := "ng18-zoneless"
          description := "Optional: Enable experimental zoneless change detection"
          impact := Impact.low
          autoFixable := false
          manualSteps :=
            [ "Add provideExperimentalZonelessChangeDetection() to bootstrapApplication"
            , "Test change detection behavior"
            , "Update OnPush strategies if needed" ] }
      , { id := "ng18-event-replay"
          description := "Enable event replay for hydration"
          impact := Impact.low
          autoFixable := true
          codemodName := some "eventReplayMigration" } ]
    ngUpdateCommands :=
      [ "ng update @angular/core@18 @angular/cli@18"
      , "ng update @angular/material@18" ] }

/-- The `18-19` entry of `ANGULAR_MIGRATIONS`. -/
def migration18to19 : MigrationPath :=
  { fromVer := 18
    toVer := 19
    name := "Angular 18 to 19"
    description := "Migration from Angular 18 to Angular 19 with standalone ng-new, incremental hydration, and modern bundling"
    dependencies :=
      [ { name := "@angular/animations", version := 19 }
      , { name := "@angular/common", version := 19 }
      , { name := "@angular/compiler", version := 19 }
      , { name := "@angular/core", version := 19 }
      , { name := "@angular/forms", version := 19 }
      , { name := "@angular/platform-browser", version := 19 }
      , { name := "@angular/platform-browser-dynamic", version := 19 }
      , { name := "@angular/router", version := 19 }
      , { name := "@angular/service-worker", version := 19 }
      , { name := "@angular/material", version := 19 }
      , { name := "@angular/cdk", version := 19 }
      , { name := "rxjs", version := 7 }
      , { name := "tslib", version := 2 }
      , { name := "zone.js", version := 0 } ]
    devDependencies :=
      [ { name := "@angular-devkit/build-angular", version := 19 }
      , { name := "@angular/cli", version := 19 }
      , { name := "@angular/compiler-cli", version := 19 }
      , { name := "@types/jasmine", version := 5 }
      , { name := "jasmine-core", version := 5 }
      , { name := "karma", version := 6 }
      , { name := "karma-chrome-launcher", version := 3 }
      , { name := "karma-coverage", version := 2 }
      , { name := "karma-jasmine", version := 5 }
      , { name := "karma-jasmine-html-reporter", version := 2 }
      , { name := "typescript", version := 5 } ]
    peerDependencies := []
    breakingChanges :=
      [ { id := "ng19-standalone-default"
          description := "New applications are standalone by default"
          impact := Impact.low
          autoFixable := true
          codemodName := some "standaloneDefaultMigration" }
      , { id := "ng19-incremental-hydration"
          description := "Enable incremental hydration for better performance"
          impact := Impact.medium
          autoFixable := true
          codemodName := some "incrementalHydrationMigration" }
      , { id := "ng19-modern-bundling"
          description := "Update to modern bundling with esbuild"
          impact := Impact.medium
          autoFixable := false
          manualSteps :=
            [ "Update angular.json builder configurations"
            , "Test build output and performance"
            , "Update CI/CD scripts if needed" ] }
      , { id := "ng19-signal-apis"
          description := "Adopt new signal-based APIs"
          impact := Impact.low
          autoFixable := false
          manualSteps :=
            [ "Consider migrating to signal inputs/outputs"
            , "Evaluate signal-based state management"
            , "Update reactive patterns" ] } ]
    ngUpdateCommands :=
      [ "ng update @angular/core@19 @angular/cli@19"
      , "ng update @angular/material@19" ] }

/-- The `19-20` entry of `ANGULAR_MIGRATIONS`. -/
def migration19to20 : MigrationPath :=
  { fromVer := 19
    toVer := 20
    name := "Angular 19 to 20"
    description := "Migration from Angular 19 to Angular 20 with full signal migration and advanced optimizations"
    dependencies :=
      [ { name := "@angular/animations", version := 20 }
      , { name := "@angular/common", version := 20 }
      , { name := "@angular/compiler", version := 20 }
      , { name := "@angular/core", version := 20 }
      , { name := "@angular/forms", version := 20 }
      , { name := "@angular/platform-browser", version := 20 }
      , { name := "@angular/platform-browser-dynamic", version := 20 }
      , { name := "@angular/router", version := 20 }
      , { name := "@angular/service-worker", version := 20 }
      , { name := "@angular/material", version := 20 }
      , { name := "@angular/cdk", version := 20 }
      , { name := "rxjs", version := 7 }
      , { name := "tslib", version := 2 }
      , { name := "zone.js", version := 0 } ]
    devDependencies :=
      [ { name := "@angular-devkit/build-angular", version := 20 }
      , { name := "@angular/cli", version := 20 }
      , { name := "@angular/compiler-cli", version := 20 }
      , { name := "@types/jasmine", version := 5 }
      , { name := "jasmine-core", version := 5 }
      , { name := "karma", version := 6 }
      , { name := "karma-chrome-launcher", version := 3 }
      , { name := "karma-coverage", version := 2 }
      , { name := "karma-jasmine", version := 5 }
      , { name := "karma-jasmine-html-reporter", version := 2 }
      , { name := "typescript", version := 5 } ]
    peerDependencies := []
    breakingChanges :=
      [ { id := "ng20-full-signals"
          description := "Complete signal-based reactivity system"
          impact := Impact.high
          autoFixable := true
          codemodName := some "fullSignalMigration"
          manualSteps :=
            [ "Review signal conversion results"
            , "Update reactive patterns"
            , "Test change detection performance" ] }
      , { id := "ng20-zoneless-default"
          description := "Zoneless change detection becomes default"
          impact := Impact.high
          autoFixable := true
          codemodName := some "zonelessDefaultMigration"
          manualSteps :=
            [ "Remove zone.js if not needed"
            , "Update change detection strategies"
            , "Test async operations" ] }
      , { id := "ng20-advanced-bundling"
          description := "Advanced tree-shaking and optimization"
          impact := Impact.medium
          autoFixable := false
          manualSteps :=
            [ "Review build configuration"
            , "Optimize bundle size"
            , "Update lazy loading strategies" ] } ]
    ngUpdateCommands :=
      [ "ng update @angular/core@20 @angular/cli@20"
      , "ng update @angular/material@20" ] }

/-- `ANGULAR_MIGRATIONS` from `versions.ts` (the record keyed by
`"from-to"` strings is modelled as the list of its entries; lookups compare
the `from`/`to` fields, which by construction mirror the keys). -/
def ANGULAR_MIGRATIONS : List MigrationPath :=
  [migration17to18, migration18to19, migration19to20]

/-- `getMigrationPath` from `versions.ts`: look up the step keyed by the
ordered pair of versions, `null` when absent. -/
def getMigrationPath (migrations : List MigrationPath) (src dst : Nat) :
    Option MigrationPath :=
  migrations.find? fun m => m.fromVer == src && m.toVer == dst

/-- The error message thrown by `getMigrationChain` for a missing adjacency. -/
def noPathMessage (current : Nat) : String :=
  "No migration path found from Angular " ++ toString current ++ " to " ++
    toString (current + 1)

/-- The `while (current < to)` loop body of `getMigrationChain`, with the
remaining iteration count `target - current` (which the loop decrements to
zero) made an explicit structural argument: collect the step for every
adjacent pair, throwing (modelled as `Except.error`) on the first missing
adjacency and discarding any partial chain. -/
def getMigrationChainGo (migrations : List MigrationPath) :
    Nat → Nat → Except String (List MigrationPath)
  | _, 0 => Except.ok []
  | current, remaining + 1 =>
      match getMigrationPath migrations current (current + 1) with
      | none => Except.error (noPathMessage current)
      | some migration =>
          match getMigrationChainGo migrations (current + 1) remaining with
          | Except.error e => Except.error e
          | Except.ok rest => Except.ok (migration :: rest)

/-- `getMigrationChain` from `versions.ts`: the loop runs while
`current < target`, i.e. for exactly `target - current` iterations. -/
def getMigrationChain (migrations : List MigrationPath)
    (current target : Nat) : Except String (List MigrationPath) :=
  getMigrationChainGo migrations current (target - current)

/-- The project's `package.json` as read and written by `dependencies.ts`
(dependency maps as association lists without duplicate keys in well-formed
manifests; declared version strings abstracted to the versions they denote). -/
structure PackageJson where
  dependencies : List (String × Nat)
  devDependencies : List (String × Nat)
  overrides : List (String × Nat)
  resolutions : List (String × Nat)
deriving DecidableEq, Repr

/-- JS object spread `{...a, ...b}`: keys of `a` keep their position but take
the value from `b` on collision, and the remaining keys of `b` follow. -/
def spreadMerge (a b : List (String × Nat)) : List (String × Nat) :=
  (a.map fun p =>
    match b.lookup p.1 with
    | some v => (p.1, v)
    | none => p) ++
  b.filter fun p => (a.lookup p.1).isNone

/-- JS property assignment `obj[key] = v` on an existing key. -/
def setEntry (l : List (String × Nat)) (key : String) (v : Nat) :
    List (String × Nat) :=
  l.map fun p => if p.1 = key then (p.1, v) else p

/-- `Object.assign(a, b)`: overwrite colliding keys of `a`, append the new
keys of `b`. -/
def assignMerge (a b : List (String × Nat)) : List (String × Nat) :=
  (a.map fun p =>
    match b.lookup p.1 with
    | some v => (p.1, v)
    | none => p) ++
  b.filter fun p => (a.lookup p.1).isNone

/-- `DependencyUpdateResult` from `dependencies.ts`. -/
structure DependencyUpdateResult where
  success : Bool
  updated : List String
  failed : List String
  errors : List String
deriving DecidableEq, Repr

/-- The target dependency set a step analyzes:
`[...migration.dependencies, ...migration.devDependencies]`. -/
def targetDeps (migration : MigrationPath) : List DependencyVersion :=
  migration.dependencies ++ migration.devDependencies

/-- `analyzePeerDependencyConflicts` from `dependencies.ts` (the manifest is
assumed present; the missing-`package.json` early return is not modelled). -/
def analyzePeerDependencyConflicts (reg : Registry) (pm : PMName)
    (installed : String → Option Nat) (migration : MigrationPath)
    (pkg : PackageJson) : ConflictResolution :=
  let allDeps := spreadMerge pkg.dependencies pkg.devDependencies
  let conflicts := (targetDeps migration).flatMap fun dep =>
    checkPeerDependencies reg pm installed dep allDeps
  generateConflictResolution conflicts allDeps

/-- The loop body applying one entry of `resolutions.dependencyUpdates` in
`resolvePeerDependencyConflicts`: update the entry where it is declared
(dependencies first, then devDependencies), recording the update; silently
skip packages declared in neither map. -/
def applyDependencyUpdate (st : PackageJson × List String)
    (upd : String × Nat) : PackageJson × List String :=
  if (st.1.dependencies.lookup upd.1).isSome then
    ({ st.1 with dependencies := setEntry st.1.dependencies upd.1 upd.2 },
     st.2 ++ [upd.1 ++ "@" ++ toString upd.2])
  else if (st.1.devDependencies.lookup upd.1).isSome then
    ({ st.1 with
       devDependencies := setEntry st.1.devDependencies upd.1 upd.2 },
     st.2 ++ [upd.1 ++ "@" ++ toString upd.2 ++ " (dev)"])
  else st

/-- `resolvePeerDependencyConflicts` from `dependencies.ts`: returns the
update result together with the in-memory manifest after the edits (written to
disk when not a dry run; the manifest value is the same either way).  For npm
and yarn the `packageOverrides` object of a generated resolution is always
defined (it is `{}` when empty), so the corresponding branch always runs. -/
def resolvePeerDependencyConflicts (pm : PMName)
    (resolution : ConflictResolution) (pkg : PackageJson) :
    DependencyUpdateResult × PackageJson :=
  if !resolution.canAutoResolve then
    ({ success := false
       updated := []
       failed := []
       errors := "Cannot auto-resolve peer dependency conflicts" ::
         resolution.manualSteps }, pkg)
  else
    let afterUpdates :=
      resolution.dependencyUpdates.foldl applyDependencyUpdate (pkg, [])
    let afterOverrides :=
      if pm = PMName.npm then
        ({ afterUpdates.1 with
           overrides := assignMerge afterUpdates.1.overrides
             resolution.packageOverrides },
         afterUpdates.2 ++ ["Added package overrides"])
      else afterUpdates
    let afterResolutions :=
      if pm = PMName.yarn then
        ({ afterOverrides.1 with
           resolutions := assignMerge afterOverrides.1.resolutions
             resolution.packageOverrides },
         afterOverrides.2 ++ ["Added yarn resolutions"])
      else afterOverrides
    ({ success := true
       updated := afterResolutions.2
       failed := []
       errors := [] }, afterResolutions.1)

/-- Whether the character list `pat` occurs at the start of `s`. -/
def charsStartWith : List Char → List Char → Bool
  | _, [] => true
  | [], _ :: _ => false
  | c :: cs, d :: ds => c == d && charsStartWith cs ds

/-- Whether the character list `pat` occurs anywhere in `s`. -/
def charsContain (s pat : List Char) : Bool :=
  match s with
  | [] => charsStartWith [] pat
  | _ :: cs => charsStartWith s pat || charsContain cs pat

/-- JS `String.prototype.includes(sub)`: substring occurrence. -/
def includesSubstr (s sub : String) : Bool :=
  charsContain s.data sub.data

/-- The error classifier inside `installDependenciesWithRetry`:
`errorMessage.includes('ERESOLVE') || errorMessage.includes('peer dep')`. -/
def isResolutionClassError (msg : String) : Bool :=
  includesSubstr msg "ERESOLVE" || includesSubstr msg "peer dep"

/-- The dependency-relevant on-disk state purged by `cleanNodeModules`. -/
structure ProjectFiles where
  nodeModules : Bool
  lockFiles : List String
deriving DecidableEq, Repr

/-- The lock files `cleanNodeModules` removes. -/
def lockFileNames : List String :=
  ["package-lock.json", "yarn.lock", "pnpm-lock.yaml"]

/-- `cleanNodeModules` from `dependencies.ts`: remove `node_modules` and the
three known lock files, leaving everything else. -/
def cleanNodeModules (fs : ProjectFiles) : ProjectFiles :=
  { nodeModules := false
    lockFiles := fs.lockFiles.filter fun f => !(lockFileNames.contains f) }

/-- One observable action of the install/retry state machine. -/
inductive InstallAction
  | installAttempt
  | cleanup
deriving DecidableEq, Repr

/-- Observable outcome of `installDependenciesWithRetry`: the actions
performed in order, the resulting on-disk state, the messages pushed into
`result.errors`, and `none` for normal return or `some msg` for a propagated
exception. -/
structure InstallRetryResult where
  actions : List InstallAction
  fsState : ProjectFiles
  errors : List String
  thrown : Option String
deriving DecidableEq, Repr

/-- The error message `installDependencies` pushes before rethrowing. -/
def installFailureMessage (msg : String) : String :=
  "Failed to install dependencies: " ++ msg

/-- `installDependenciesWithRetry` from `dependencies.ts`.  The two possible
invocations of the external install command are modelled by their outcomes
`attempt1`/`attempt2` (`none` = exit success, `some msg` = failure with that
message); the second outcome is consulted only if a retry happens.  A
resolution-class first failure triggers exactly one cleanup-and-retry cycle;
any other first failure is rethrown directly; a retry failure is rethrown
after recording the clean-install error. -/
def installDependenciesWithRetry (attempt1 attempt2 : Option String)
    (fs : ProjectFiles) : InstallRetryResult :=
  match attempt1 with
  | none =>
      { actions := [InstallAction.installAttempt]
        fsState := fs
        errors := []
        thrown := none }
  | some msg =>
      if isResolutionClassError msg then
        let fs1 := cleanNodeModules fs
        match attempt2 with
        | none =>
            { actions := [InstallAction.installAttempt, InstallAction.cleanup,
                          InstallAction.installAttempt]
              fsState := fs1
              errors := [installFailureMessage msg]
              thrown := none }
        | some msg2 =>
            { actions := [InstallAction.installAttempt, InstallAction.cleanup,
                          InstallAction.installAttempt]
              fsState := fs1
              errors := [installFailureMessage msg, installFailureMessage msg2,
                "Clean install also failed. You may need to resolve peer dependencies manually."]
              thrown := some msg2 }
      else
        { actions := [InstallAction.installAttempt]
          fsState := fs
          errors := [installFailureMessage msg]
          thrown := some msg }

/-- `MigrationIssue` from `detector.ts` (`category` kept as the literal
strings the source uses). -/
inductive IssueSeverity
  | error
  | warning
  | info
deriving DecidableEq, Repr

/-- `MigrationIssue` from `detector.ts`. -/
structure MigrationIssue where
  id : String
  severity : IssueSeverity
  category : String
  title : String
  description : String
  autoFixable : Bool
  migrationStep : Option Nat := none
deriving DecidableEq, Repr

/-- `MigrationAnalysis` from `detector.ts`. -/
structure MigrationAnalysis where
  isValid : Bool
  currentVersion : Option Nat
  targetVersion : Nat
  migrationPath : List Nat
  issues : List MigrationIssue
  recommendations : List String
  estimatedComplexity : String
  estimatedTimeHours : Nat
deriving DecidableEq, Repr

/-- The issue returned by `analyzeMigration` when no Angular version is
detected. -/
def noAngularVersionIssue : MigrationIssue :=
  { id := "no-angular-version"
    severity := IssueSeverity.error
    category := "dependency"
    title := "Angular version not detected"
    description := "Could not determine the current Angular version from package.json"
    autoFixable := false }

/-- The issue returned by `analyzeMigration` when the project is already at
the target version. -/
def sameVersionIssue (targetVersion : Nat) : MigrationIssue :=
  { id := "same-version"
    severity := IssueSeverity.info
    category := "dependency"
    title := "Already at target version"
    description := "Project is already at Angular " ++ toString targetVersion
    autoFixable := false }

/-- The issue returned by `analyzeMigration` when the target is behind the
current version. -/
def downgradeIssue (currentVersion targetVersion : Nat) : MigrationIssue :=
  { id := "downgrade-not-supported"
    severity := IssueSeverity.error
    category := "dependency"
    title := "Downgrade not supported"
    description := "Cannot downgrade from Angular " ++ toString currentVersion ++
      " to " ++ toString targetVersion
    autoFixable := false }

/-- The issue returned by `analyzeMigration` when `getMigrationChain` throws. -/
def noMigrationPathIssue (currentVersion targetVersion : Nat) : MigrationIssue :=
  { id := "no-migration-path"
    severity := IssueSeverity.error
    category := "dependency"
    title := "No migration path available"
    description := "No migration path available from Angular " ++
      toString currentVersion ++ " to " ++ toString targetVersion
    autoFixable := false }

/-- The project-dependent heuristics of the valid branch of
`analyzeMigration` (`detectMigrationIssues`, `generateRecommendations`,
`estimateComplexity`, `estimateTime`), abstracted as parameters: the claims
never inspect their values. -/
structure AnalysisHeuristics where
  detectIssues : List MigrationPath → List MigrationIssue
  recommendations : List MigrationPath → List MigrationIssue → List String
  complexity : List MigrationPath → List MigrationIssue → String
  timeHours : String → Nat → Nat → Nat

/-- `analyzeMigration` from `detector.ts`: validate the current/target pair,
then build the chain (the thrown `NoPathError` is caught and turned into the
no-migration-path analysis). -/
def analyzeMigration (h : AnalysisHeuristics) (migrations : List MigrationPath)
    (currentAngularVersion : Option Nat) (targetVersion : Nat) :
    MigrationAnalysis :=
  match currentAngularVersion with
  | none =>
      { isValid := false
        currentVersion := none
        targetVersion := targetVersion
        migrationPath := []
        issues := [noAngularVersionIssue]
        recommendations := ["Ensure @angular/core is installed in dependencies"]
        estimatedComplexity := "high"
        estimatedTimeHours := 0 }
  | some currentVersion =>
      if currentVersion = targetVersion then
        { isValid := false
          currentVersion := some currentVersion
          targetVersion := targetVersion
          migrationPath := []
          issues := [sameVersionIssue targetVersion]
          recommendations := ["No migration needed"]
          estimatedComplexity := "low"
          estimatedTimeHours := 0 }
      else if currentVersion > targetVersion then
        { isValid := false
          currentVersion := some currentVersion
          targetVersion := targetVersion
          migrationPath := []
          issues := [downgradeIssue currentVersion targetVersion]
          recommendations := ["Consider creating a new project with the target version"]
          estimatedComplexity := "high"
          estimatedTimeHours := 0 }
      else
        match getMigrationChain migrations currentVersion targetVersion with
        | Except.ok migrationChain =>
            let issues := h.detectIssues migrationChain
            let complexity := h.complexity migrationChain issues
            { isValid := true
              currentVersion := some currentVersion
              targetVersion := targetVersion
              migrationPath := migrationChain.map (·.toVer)
              issues := issues
              recommendations := h.recommendations migrationChain issues
              estimatedComplexity := complexity
              estimatedTimeHours :=
                h.timeHours complexity issues.length migrationChain.length }
        | Except.error _ =>
            { isValid := false
              currentVersion := some currentVersion
              targetVersion := targetVersion
              migrationPath := []
              issues := [noMigrationPathIssue currentVersion targetVersion]
              recommendations := ["Check if the target version is supported"]
              estimatedComplexity := "high"
              estimatedTimeHours := 0 }

/-- One entry of the `applyFixes` result consumed by `generateSummary`
(external transformation collaborator). -/
structure CodeChange where
  file : String
  issuesFixed : List String
deriving DecidableEq, Repr

/-- `MigrationStep` from `orchestrator.ts` (the wall-clock `duration` field is
not modelled). -/
structure MigrationStep where
  stepNumber : Nat
  migration : MigrationPath
  description : String
  dependencies : Option DependencyUpdateResult
  codeChanges : Option (List CodeChange)
  issues : List MigrationIssue
  success : Bool
  error : Option String := none
deriving DecidableEq, Repr

/-- `MigrationOptions` from `orchestrator.ts`; the two options read through
`!== false` (`createBackup`, `resolvePeerConflicts`) default to `true`. -/
structure MigrationOptions where
  dryRun : Bool := false
  skipTests : Bool := false
  skipDependencies : Bool := false
  skipCodeMods : Bool := false
  createBackup : Bool := true
  continueOnError : Bool := false
  runTestsAfterEachStep : Bool := false
  resolvePeerConflicts : Bool := true
  allowPeerConflictOverrides : Bool := false
  interactive : Bool := false
deriving DecidableEq, Repr

/-- `convertConflictsToIssues` from `orchestrator.ts`. -/
def convertConflictsToIssues (resolution : ConflictResolution)
    (stepNumber : Nat) : List MigrationIssue :=
  resolution.conflicts.map fun conflict =>
    { id := "peer-conflict-" ++ conflict.packageName
      severity :=
        if conflict.resolutionStrategy = ResolutionStrategy.manual then
          IssueSeverity.error
        else IssueSeverity.warning
      category := "dependency"
      title := "Peer dependency conflict: " ++ conflict.packageName
      description := conflict.reasoning ++ ". Required by: " ++
        String.intercalate ", " conflict.requiredBy
      autoFixable := !(conflict.resolutionStrategy = ResolutionStrategy.manual)
      migrationStep := some stepNumber }

/-- The issue list built by the final `step.issues = ...` assignment in
`executeMigrationStep`: every non-auto-fixable breaking change of the step's
spec, with severity derived from impact. -/
def breakingChangeIssues (migration : MigrationPath) (stepNumber : Nat) :
    List MigrationIssue :=
  (migration.breakingChanges.filter fun change => !change.autoFixable).map
    fun change =>
      { id := change.id
        severity :=
          if change.impact = Impact.high then IssueSeverity.error
          else IssueSeverity.warning
        category := "breaking-change"
        title := change.description
        description :=
          if change.manualSteps.isEmpty then "Manual intervention required"
          else String.intercalate "\n" change.manualSteps
        autoFixable := false
        migrationStep := some stepNumber }

/-- Tail of `executeMigrationStep` after the codemod section: the final
issue-list assignment, which replaces whatever was collected before. -/
def finalizeStep (step : MigrationStep) (codemodResults : List CodeChange)
    (options : MigrationOptions) : MigrationStep :=
  let s1 :=
    if !options.skipCodeMods && step.success then
      { step with codeChanges := some codemodResults }
    else step
  { s1 with issues := breakingChangeIssues s1.migration s1.stepNumber }

/-- Middle of `executeMigrationStep`, from the `updateDependencies` call (its
outcome is the external `updateResult`) to the end: record the dependency
outcome, append peer-conflict issues when a conflict analysis ran and found
conflicts, then run the codemod section and the final issue assignment. -/
def executeStepDeps (cr : Option ConflictResolution)
    (updateResult : DependencyUpdateResult) (codemodResults : List CodeChange)
    (options : MigrationOptions) (step : MigrationStep) : MigrationStep :=
  let s1 :=
    { step with
      dependencies := some updateResult
      success := if updateResult.success then step.success else false
      error :=
        if updateResult.success then step.error
        else some ("Dependency update failed: " ++
          String.intercalate ", " updateResult.errors) }
  let s2 :=
    match cr with
    | some c =>
        if c.conflicts.length > 0 then
          { s1 with issues :=
              s1.issues ++ convertConflictsToIssues c s1.stepNumber }
        else s1
    | none => s1
  finalizeStep s2 codemodResults options

/-- `executeMigrationStep` from `orchestrator.ts`.  External effects are
modelled as arguments: `updateResult` is the outcome of
`updateDependencies` (install, ng-update), `codemodResults` the outcome of
`applyCodemods`; pre/post tasks swallow their own failures and have no
observable effect on the returned step.  Conflict analysis and resolution are
the repository's own logic and are invoked directly. -/
def executeMigrationStep (reg : Registry) (pm : PMName)
    (installed : String → Option Nat) (pkg : PackageJson)
    (updateResult : DependencyUpdateResult) (codemodResults : List CodeChange)
    (migration : MigrationPath) (stepNumber : Nat)
    (options : MigrationOptions) : MigrationStep :=
  let step : MigrationStep :=
    { stepNumber := stepNumber
      migration := migration
      description := migration.description
      dependencies := none
      codeChanges := none
      issues := []
      success := true
      error := none }
  if options.skipDependencies then
    finalizeStep step codemodResults options
  else if options.resolvePeerConflicts then
    let cr := analyzePeerDependencyConflicts reg pm installed migration pkg
    if cr.conflicts.length > 0 then
      if cr.canAutoResolve then
        let conflictResult := (resolvePeerDependencyConflicts pm cr pkg).1
        if !conflictResult.success then
          { step with
            success := false
            error := some ("Peer dependency resolution failed: " ++
              String.intercalate ", " conflictResult.errors) }
        else executeStepDeps (some cr) updateResult codemodResults options step
      else if !options.allowPeerConflictOverrides then
        { step with
          success := false
          error := some ("Peer dependency conflicts require manual resolution: " ++
            String.intercalate ", " cr.manualSteps) }
      else executeStepDeps (some cr) updateResult codemodResults options step
    else executeStepDeps (some cr) updateResult codemodResults options step
  else executeStepDeps none updateResult codemodResults options step

/-- `MigrationResult['summary']` from `orchestrator.ts`. -/
structure MigrationSummary where
  dependenciesUpdated : Nat
  filesModified : Nat
  issuesFixed : Nat
  manualStepsRequired : List String
deriving DecidableEq, Repr

/-- `MigrationResult` from `orchestrator.ts` (wall-clock `totalDuration` is
not modelled; `backupPath` is `none` for the absent field and `some s` for a
present string, which can be empty). -/
structure MigrationResult where
  success : Bool
  fromVersion : Nat
  toVersion : Nat
  steps : List MigrationStep
  summary : MigrationSummary
  backupPath : Option String
deriving DecidableEq, Repr

/-- `generateSummary` from `orchestrator.ts`. -/
def generateSummary (steps : List MigrationStep) : MigrationSummary :=
  { dependenciesUpdated :=
      (steps.map fun s =>
        match s.dependencies with
        | some d => if d.success then d.updated.length else 0
        | none => 0).sum
    filesModified := (steps.map fun s => (s.codeChanges.getD []).length).sum
    issuesFixed :=
      (steps.map fun s =>
        ((s.codeChanges.getD []).map (·.issuesFixed.length)).sum).sum
    manualStepsRequired :=
      steps.flatMap fun s =>
        (s.issues.filter fun i => !i.autoFixable).map fun i =>
          toString s.migration.toVer ++ ": " ++ i.title }

/-- `createProjectBackup` from `orchestrator.ts`: the system copy command is
external (`copySucceeds` models its exit status); on failure the method
catches, warns on the console only, and returns the empty string. -/
def createProjectBackup (copySucceeds : Bool) (backupDir : String) : String :=
  if copySucceeds then backupDir else ""

/-- The step-execution loop of `migrate`: run steps in order (step numbers
starting at 1), stop after the first failed step unless `continueOnError`,
and flip the run-level `success` flag only at that stopping point. -/
def migrateLoop (exec : MigrationPath → Nat → MigrationStep)
    (continueOnError : Bool) :
    List MigrationPath → Nat → List MigrationStep × Bool
  | [], _ => ([], true)
  | migration :: rest, i =>
      let step := exec migration (i + 1)
      if !step.success && !continueOnError then
        ([step], false)
      else
        let r := migrateLoop exec continueOnError rest (i + 1)
        (step :: r.1, r.2)

/-- The all-zero summary of the early-return result of `migrate`. -/
def emptySummary : MigrationSummary :=
  { dependenciesUpdated := 0
    filesModified := 0
    issuesFixed := 0
    manualStepsRequired := [] }

/-- The early-return `MigrationResult` of `migrate` for an invalid analysis:
zero steps, `success: false`, no issue content, `backupPath` absent. -/
def invalidAnalysisResult (analysis : MigrationAnalysis) (targetVersion : Nat) :
    MigrationResult :=
  { success := false
    fromVersion := analysis.currentVersion.getD 0
    toVersion := targetVersion
    steps := []
    summary := emptySummary
    backupPath := none }

/-- `migrate` from `orchestrator.ts`.  The per-step executor (with its
per-step external outcomes) is abstracted as `exec`; `executeMigrationStep`
above is its instantiation for given externals.  An uncaught
`getMigrationChain` throw propagates out of `migrate`, hence the `Except`
result. -/
def migrate (h : AnalysisHeuristics) (migrations : List MigrationPath)
    (exec : MigrationPath → Nat → MigrationStep) (backupOk : Bool)
    (backupDir : String) (currentAngularVersion : Option Nat)
    (targetVersion : Nat) (options : MigrationOptions) :
    Except String MigrationResult :=
  let analysis := analyzeMigration h migrations currentAngularVersion targetVersion
  match analysis.currentVersion, analysis.isValid with
  | some currentVersion, true =>
      let backupPath :=
        if options.createBackup then
          some (createProjectBackup backupOk backupDir)
        else none
      match getMigrationChain migrations currentVersion targetVersion with
      | Except.error e => Except.error e
      | Except.ok migrationChain =>
          let run := migrateLoop exec options.continueOnError migrationChain 0
          Except.ok
            { success := run.2
              fromVersion := currentVersion
              toVersion := targetVersion
              steps := run.1
              summary := generateSummary run.1
              backupPath := backupPath }
  | _, _ => Except.ok (invalidAnalysisResult analysis targetVersion)

/-- Heuristics instance with trivial project analysis (no detected issues),
used for concrete runs. -/
def trivialHeuristics : AnalysisHeuristics :=
  { detectIssues := fun _ => []
    recommendations := fun _ _ => []
    complexity := fun _ _ => "low"
    timeHours := fun _ _ _ => 0 }

/-- Registry fixture with no peer declarations and no published versions. -/
def trivialRegistry : Registry :=
  { peerDeps := fun _ _ => []
    availableVersions := fun _ => [] }

/-- No package is installed in `node_modules`. -/
def instNone : String → Option Nat := fun _ => none

/-- An empty manifest fixture. -/
def emptyPkg : PackageJson :=
  { dependencies := []
    devDependencies := []
    overrides := []
    resolutions := [] }

/-- The defaulted options record (`migrate(target, {})`). -/
def defaultOptions : MigrationOptions := {}

/-- A successful `updateDependencies` outcome fixture. -/
def okUpdateResult : DependencyUpdateResult :=
  { success := true
    updated := ["dependency installation"]
    failed := []
    errors := [] }

/-- A failed `updateDependencies` outcome fixture (install command failed). -/
def failedUpdateResult : DependencyUpdateResult :=
  { success := false
    updated := []
    failed := ["dependency installation"]
    errors := ["Failed to install dependencies: Command failed"] }

/-- Registry fixture for the conflict scenarios: the target dependency `a`
declares a peer requirement `p@[10,20]`, the already-installed dependency `o`
declares the competing, non-intersecting peer requirement `p@[30,40]`, and
`p` is published at versions 12, 15, 18 (none of which is in `[30,40]`). -/
def regC : Registry :=
  { peerDeps := fun name version =>
      if name = "a" && version = 1 then [("p", { lo := 10, hi := 20 })]
      else if name = "o" && version = 1 then [("p", { lo := 30, hi := 40 })]
      else []
    availableVersions := fun name =>
      if name = "p" then [12, 15, 18] else [] }

/-- A non-auto-fixable high-impact breaking change fixture. -/
def bcManual : BreakingChange :=
  { id := "fixture-manual-change"
    description := "Update the theme configuration"
    impact := Impact.high
    autoFixable := false
    manualSteps := ["Update the theme configuration by hand"] }

/-- An auto-fixable breaking change fixture. -/
def bcAuto : BreakingChange :=
  { id := "fixture-auto-change"
    description := "Automated template rewrite"
    impact := Impact.low
    autoFixable := true }

/-- A single-step migration fixture whose target dependency set is `[a@1]`
and whose spec declares one non-auto-fixable breaking change. -/
def mFix : MigrationPath :=
  { fromVer := 17
    toVer := 18
    name := "Fixture 17 to 18"
    description := "Single-step fixture"
    dependencies := [{ name := "a", version := 1 }]
    devDependencies := []
    peerDependencies := []
    breakingChanges := [bcManual, bcAuto]
    ngUpdateCommands := [] }

/-- A single-step migration fixture with no breaking changes. -/
def mPlain : MigrationPath :=
  { fromVer := 17
    toVer := 18
    name := "Plain 17 to 18"
    description := "Single-step fixture without breaking changes"
    dependencies := []
    devDependencies := []
    peerDependencies := []
    breakingChanges := []
    ngUpdateCommands := [] }

/-- Manifest fixture declaring the conflicting owner `o@1`. -/
def pkgO : PackageJson :=
  { dependencies := [("o", 1)]
    devDependencies := []
    overrides := []
    resolutions := [] }

/-- Amended recording condition for peer conflicts (corrected claim C1): a
conflict for a peer is recorded exactly when at least one competing
requirement is unsatisfied, with no role for the project's declared current
version of the peer. -/
def checkPeerDependenciesAmended (reg : Registry) (pm : PMName)
    (installed : String → Option Nat) (dependency : DependencyVersion)
    (currentDeps : List (String × Nat)) : List PeerDependencyConflict :=
  (reg.peerDeps dependency.name dependency.version).filterMap fun peer =>
    if (findConflictingRequirements reg peer.1 peer.2 currentDeps).any
        (fun req => !req.satisfied) then
      some (mkPeerConflict reg pm installed dependency.name currentDeps
        peer.1 peer.2)
    else none

/-- The strategy-selection rule exactly as claim C2 states it (including the
`downgrade` case for an intersection below the currently installed version),
for comparison against the source's `determineResolutionStrategy`. -/
def determineResolutionStrategyClaimed (reg : Registry) (pm : PMName)
    (installedVersion : Option Nat) (packageName : String)
    (requiredRange : SemverRange)
    (conflictingRequirements : List ConflictingRequirement) :
    ResolutionStrategy :=
  let allRanges := requiredRange :: conflictingRequirements.map (·.version)
  match findVersionIntersection reg packageName allRanges with
  | some v =>
      match installedVersion with
      | some iv =>
          if v < iv then ResolutionStrategy.downgrade
          else ResolutionStrategy.upgrade
      | none => ResolutionStrategy.upgrade
  | none =>
      if pm = PMName.npm ∨ pm = PMName.yarn then ResolutionStrategy.overrides
      else ResolutionStrategy.manual

/-- Whether `executeMigrationStep` takes one of its two early returns in the
peer-conflict section (failed auto-resolution, or unresolvable conflicts
without permission to continue). -/
def stepEarlyReturns (reg : Registry) (pm : PMName)
    (installed : String → Option Nat) (pkg : PackageJson)
    (migration : MigrationPath) (options : MigrationOptions) : Bool :=
  if options.skipDependencies then false
  else if options.resolvePeerConflicts then
    let cr := analyzePeerDependencyConflicts reg pm installed migration pkg
    if cr.conflicts.length > 0 then
      if cr.canAutoResolve then
        !(resolvePeerDependencyConflicts pm cr pkg).1.success
      else !options.allowPeerConflictOverrides
    else false
  else false

/-- Options enabling `continueOnError`. -/
def coOptions : MigrationOptions := { continueOnError := true }

/-- Step executor instantiation whose external install outcome failed. -/
def failedInstallExec : MigrationPath → Nat → MigrationStep :=
  fun migration stepNumber =>
    executeMigrationStep trivialRegistry PMName.npm instNone emptyPkg
      failedUpdateResult [] migration stepNumber coOptions

/-- Step executor instantiation with clean externals. -/
def plainExec : MigrationPath → Nat → MigrationStep :=
  fun migration stepNumber =>
    executeMigrationStep trivialRegistry PMName.npm instNone emptyPkg
      okUpdateResult [] migration stepNumber defaultOptions

/-- The result of the concrete `continueOnError` run used for claim C3. -/
def c3Result : MigrationResult :=
  { success := true
    fromVersion := 17
    toVersion := 18
    steps := [failedInstallExec migration17to18 1]
    summary := generateSummary [failedInstallExec migration17to18 1]
    backupPath := some "backup-dir" }

/-- The result of the concrete failed-backup run used for claim C7. -/
def c7Result : MigrationResult :=
  { success := true
    fromVersion := 17
    toVersion := 18
    steps := [plainExec mPlain 1]
    summary := generateSummary [plainExec mPlain 1]
    backupPath := some "" }

/-! Theorems. -/

/-- The recording guard of `checkPeerDependencies` collapses to its last
conjunct: `hasRealConflict` already requires an unsatisfied competing
requirement, and an unsatisfied competing requirement makes the requirement
list non-empty. -/
theorem conflictGuard_eq (cv : Option Nat) (range : SemverRange)
    (reqs : List ConflictingRequirement) :
    conflictGuard cv range reqs = reqs.any fun req => !req.satisfied := by
  unfold conflictGuard
  cases h : reqs.any fun req => !req.satisfied with
  | false => simp [h]
  | true =>
      have hpos : reqs.length > 0 := by
        rcases List.any_eq_true.mp h with ⟨x, hx, -⟩
        exact List.length_pos.mpr (List.ne_nil_of_mem hx)
      simp [h, hpos]

/-- C1 (corrected): `checkPeerDependencies` records a conflict for a peer
requirement exactly when some competing requirement from another current
dependency is unsatisfied with respect to the peer range; whether the
project's declared current version of the peer satisfies the range plays no
role (the `hasRealConflict` conjunction is subsumed by the second disjunct of
the guard), so a conflict is recorded even when the declared version
satisfies the peer range. -/
theorem checkPeerDependencies_records_iff_unsatisfied_competitor
    (reg : Registry) (pm : PMName) (installed : String → Option Nat)
    (dependency : DependencyVersion) (currentDeps : List (String × Nat)) :
    checkPeerDependencies reg pm installed dependency currentDeps =
      checkPeerDependenciesAmended reg pm installed dependency currentDeps := by
  unfold checkPeerDependencies checkPeerDependenciesAmended
  simp only [conflictGuard_eq]

/-- C1 counterexample: the declared current version `p@15` satisfies the peer
range `[10,20]`, yet a conflict is recorded because the competing owner `o`
declares the non-intersecting range `[30,40]` — contradicting the claim that
no conflict is recorded when the current declared version satisfies the peer
range. -/
theorem checkPeerDependencies_flags_satisfying_current_version :
    versionSatisfiesRange 15 { lo := 10, hi := 20 } = true ∧
    (checkPeerDependencies regC PMName.npm instNone
      { name := "a", version := 1 } [("o", 1), ("p", 15)]).length = 1 :=
  ⟨by decide, by decide⟩

/-- Definitional unfolding of `determineResolutionStrategy`. -/
theorem determineResolutionStrategy_eq (reg : Registry) (pm : PMName)
    (packageName : String) (requiredRange : SemverRange)
    (reqs : List ConflictingRequirement) :
    determineResolutionStrategy reg pm packageName requiredRange reqs =
      if reqs.isEmpty then ResolutionStrategy.upgrade
      else
        match findVersionIntersection reg packageName
            (requiredRange :: reqs.map (·.version)) with
        | some _ => ResolutionStrategy.upgrade
        | none =>
            if pm = PMName.npm ∨ pm = PMName.yarn then
              ResolutionStrategy.overrides
            else ResolutionStrategy.manual := rfl

/-- A version in the available list satisfying every range makes the
version-intersection scan succeed. -/
theorem findVersionIntersection_isSome_of_exists (reg : Registry)
    (packageName : String) (ranges : List SemverRange)
    (h : ∃ v ∈ reg.availableVersions packageName,
      ∀ r ∈ ranges, semverSatisfies v r = true) :
    (findVersionIntersection reg packageName ranges).isSome = true := by
  rcases h with ⟨v, hv, hall⟩
  unfold findVersionIntersection
  rw [List.find?_isSome]
  exact ⟨v, List.mem_reverse.mpr hv, List.all_eq_true.mpr hall⟩

/-- In a list that is `≤`-sorted (pairwise), the `getLast?` element bounds
every element: it is the maximum. -/
theorem le_getLast?_of_pairwise_le :
    ∀ (l : List Nat) (v : Nat), l.Pairwise (· ≤ ·) → l.getLast? = some v →
      ∀ w ∈ l, w ≤ v := by
  intro l
  induction l with
  | nil => intro v _ h; exact absurd h (by simp)
  | cons a rest ih =>
      intro v hp hlast w hw
      rcases List.pairwise_cons.mp hp with ⟨ha, hrest⟩
      cases rest with
      | nil =>
          have hv : a = v := by simpa using hlast
          have hwa : w = a := by simpa using hw
          omega
      | cons b rest2 =>
          have hlast2 : (b :: rest2).getLast? = some v := by
            simpa [List.getLast?_cons_cons] using hlast
          have hvmem : v ∈ b :: rest2 := by
            rcases List.mem_getLast?_eq_getLast
              (by simp [hlast2] : v ∈ (b :: rest2).getLast?) with ⟨hne, hv⟩
            exact hv ▸ List.getLast_mem hne
          rcases List.mem_cons.mp hw with hwa | hwr
          · exact hwa ▸ ha v hvmem
          · exact ih v hrest hlast2 w hwr

/-- C2 (corrected): full characterization of the source's strategy selection.
The strategy is never `downgrade`; it is `upgrade` when there are no
competing requirements or whenever some available version satisfies every
range (in which case the recommended version is the intersection version, the
first match scanning newest to oldest); when no intersection exists it is
`overrides` for npm/yarn and `manual` otherwise, and the recommended version
falls back to the highest available version satisfying the primary range only
(under the registry's ascending version order).  In particular the strategy
is never `manual` when a mutually satisfying version exists. -/
theorem determineResolutionStrategy_characterization (reg : Registry)
    (pm : PMName) (packageName : String) (requiredRange : SemverRange)
    (reqs : List ConflictingRequirement) :
    determineResolutionStrategy reg pm packageName requiredRange reqs ≠
        ResolutionStrategy.downgrade ∧
    (reqs = [] →
      determineResolutionStrategy reg pm packageName requiredRange reqs =
        ResolutionStrategy.upgrade) ∧
    ((∃ v ∈ reg.availableVersions packageName,
        ∀ r ∈ requiredRange :: reqs.map (·.version),
          semverSatisfies v r = true) →
      determineResolutionStrategy reg pm packageName requiredRange reqs =
        ResolutionStrategy.upgrade) ∧
    (∀ v, findVersionIntersection reg packageName
        (requiredRange :: reqs.map (·.version)) = some v →
      findBestVersion reg packageName requiredRange reqs = some v) ∧
    (reqs ≠ [] →
      findVersionIntersection reg packageName
        (requiredRange :: reqs.map (·.version)) = none →
      ((pm = PMName.npm ∨ pm = PMName.yarn) →
        determineResolutionStrategy reg pm packageName requiredRange reqs =
          ResolutionStrategy.overrides) ∧
      (pm = PMName.pnpm →
        determineResolutionStrategy reg pm packageName requiredRange reqs =
          ResolutionStrategy.manual)) ∧
    (findVersionIntersection reg packageName
        (requiredRange :: reqs.map (·.version)) = none →
      (reg.availableVersions packageName).Pairwise (· ≤ ·) →
      ∀ v, findBestVersion reg packageName requiredRange reqs = some v →
        v ∈ reg.availableVersions packageName ∧
        semverSatisfies v requiredRange = true ∧
        ∀ w ∈ reg.availableVersions packageName,
          semverSatisfies w requiredRange = true → w ≤ v) := by
  refine ⟨?_, ?_, ?_, ?_, ?_, ?_⟩
  · rw [determineResolutionStrategy_eq]
    split
    · simp
    · split
      · simp
      · split <;> simp
  · intro h
    subst h
    rfl
  · intro h
    have hsome := findVersionIntersection_isSome_of_exists reg packageName _ h
    rw [determineResolutionStrategy_eq]
    split
    · rfl
    · rcases Option.isSome_iff_exists.mp hsome with ⟨w, hw⟩
      rw [hw]
  · intro v hv
    simp only [findBestVersion]
    rw [hv]
  · intro hne hnone
    constructor
    · intro hpm
      rw [determineResolutionStrategy_eq]
      rw [if_neg (by simpa using hne)]
      rw [hnone]
      simp [hpm]
    · intro hpm
      subst hpm
      rw [determineResolutionStrategy_eq]
      rw [if_neg (by simpa using hne)]
      rw [hnone]
      simp
  · intro hnone hsorted v hbest
    simp only [findBestVersion, hnone] at hbest
    have hps : ((reg.availableVersions packageName).filter
        (fun w => semverSatisfies w requiredRange)).Pairwise (· ≤ ·) :=
      hsorted.sublist (List.filter_sublist _)
    have hvmemf : v ∈ (reg.availableVersions packageName).filter
        (fun w => semverSatisfies w requiredRange) := by
      rcases List.mem_getLast?_eq_getLast
        (by simp [hbest] : v ∈ ((reg.availableVersions packageName).filter
          (fun w => semverSatisfies w requiredRange)).getLast?) with ⟨hne, hv⟩
      exact hv ▸ List.getLast_mem hne
    rcases List.mem_filter.mp hvmemf with ⟨hvavail, hvsat⟩
    refine ⟨hvavail, hvsat, ?_⟩
    intro w hw hwsat
    exact le_getLast?_of_pairwise_le _ v hps hbest w
      (List.mem_filter.mpr ⟨hw, hwsat⟩)

/-- C2 witness for `determineResolutionStrategy_characterization`. -/
theorem determineResolutionStrategy_characterization_witness :
    determineResolutionStrategy regC PMName.npm "p" { lo := 10, hi := 20 } [] =
      ResolutionStrategy.upgrade ∧
    determineResolutionStrategy regC PMName.pnpm "p" { lo := 10, hi := 20 }
      [⟨"o", { lo := 30, hi := 40 }, false⟩] = ResolutionStrategy.manual ∧
    findBestVersion regC "p" { lo := 10, hi := 20 }
      [⟨"o", { lo := 30, hi := 40 }, false⟩] = some 18 ∧
    18 ∈ regC.availableVersions "p" ∧
    semverSatisfies 18 { lo := 10, hi := 20 } = true :=
  ⟨(determineResolutionStrategy_characterization regC PMName.npm "p"
      { lo := 10, hi := 20 } []).2.1 rfl,
   ((determineResolutionStrategy_characterization regC PMName.pnpm "p"
      { lo := 10, hi := 20 } [⟨"o", { lo := 30, hi := 40 }, false⟩]).2.2.2.2.1
      (by decide) (by decide)).2 rfl,
   by decide,
   ((determineResolutionStrategy_characterization regC PMName.npm "p"
      { lo := 10, hi := 20 } [⟨"o", { lo := 30, hi := 40 }, false⟩]).2.2.2.2.2
      (by decide) (by decide) 18 (by decide)).1,
   ((determineResolutionStrategy_characterization regC PMName.npm "p"
      { lo := 10, hi := 20 } [⟨"o", { lo := 30, hi := 40 }, false⟩]).2.2.2.2.2
      (by decide) (by decide) 18 (by decide)).2.1⟩

/-- C2 counterexample: the intersection version 18 is below the currently
installed version 30, so the claim requires strategy `downgrade`
(as `determineResolutionStrategyClaimed` computes), but the source computes
`upgrade`: `determineResolutionStrategy` never consults the installed version
and never returns `downgrade`. -/
theorem determineResolutionStrategy_downgrade_counterexample :
    findVersionIntersection regC "p"
      [{ lo := 10, hi := 20 }, { lo := 15, hi := 18 }] = some 18 ∧
    (18 : Nat) < 30 ∧
    determineResolutionStrategyClaimed regC PMName.npm (some 30) "p"
      { lo := 10, hi := 20 } [⟨"o", { lo := 15, hi := 18 }, true⟩] =
      ResolutionStrategy.downgrade ∧
    determineResolutionStrategy regC PMName.npm "p"
      { lo := 10, hi := 20 } [⟨"o", { lo := 15, hi := 18 }, true⟩] =
      ResolutionStrategy.upgrade := by
  decide

/-- The run-level success flag computed by the step loop equals
`continueOnError || all executed steps succeeded`: the flag is flipped only
at the early-stop point. -/
theorem migrateLoop_success_eq (exec : MigrationPath → Nat → MigrationStep)
    (cont : Bool) (chain : List MigrationPath) :
    ∀ i, (migrateLoop exec cont chain i).2 =
      (cont || (migrateLoop exec cont chain i).1.all (·.success)) := by
  induction chain with
  | nil => intro i; simp [migrateLoop]
  | cons m rest ih =>
      intro i
      simp only [migrateLoop]
      by_cases hs : (exec m (i + 1)).success
      · simp [hs, ih (i + 1)]
      · cases hcont : cont
        · simp [hs, hcont]
        · have h2 := ih (i + 1)
          rw [hcont] at h2
          simp only [Bool.true_or] at h2
          simp [hs, h2]

/-- C3 (corrected): for every run of `migrate` whose analysis is valid (so
that steps are executed), the final `success` flag is `true` iff
`continueOnError` is set or every executed step succeeded.  With
`continueOnError` set, `success` stays `true` even when executed steps
failed; steps skipped by an early stop are not in `steps` and do not count. -/
theorem migrate_success_iff_continueOnError_or_no_failure
    (h : AnalysisHeuristics) (migrations : List MigrationPath)
    (exec : MigrationPath → Nat → MigrationStep) (backupOk : Bool)
    (backupDir : String) (currentAngularVersion : Option Nat)
    (targetVersion : Nat) (options : MigrationOptions) (r : MigrationResult)
    (hvalid : (analyzeMigration h migrations currentAngularVersion
      targetVersion).isValid = true)
    (hrun : migrate h migrations exec backupOk backupDir
      currentAngularVersion targetVersion options = Except.ok r) :
    r.success = (options.continueOnError || r.steps.all (·.success)) := by
  cases currentAngularVersion with
  | none => simp [analyzeMigration] at hvalid
  | some cur =>
      by_cases h1 : cur = targetVersion
      · simp [analyzeMigration, h1] at hvalid
      · by_cases h2 : cur > targetVersion
        · simp [analyzeMigration, h1, h2] at hvalid
        · cases hc : getMigrationChain migrations cur targetVersion with
          | error e => simp [analyzeMigration, h1, h2, hc] at hvalid
          | ok chain =>
              unfold migrate at hrun
              simp only [analyzeMigration, h1, h2, hc, if_false, if_neg] at hrun
              simp only [Except.ok.injEq] at hrun
              subst hrun
              simpa using migrateLoop_success_eq exec options.continueOnError chain 0

/-- C3 witness for `migrate_success_iff_continueOnError_or_no_failure`. -/
theorem migrate_success_iff_continueOnError_witness :
    (analyzeMigration trivialHeuristics ANGULAR_MIGRATIONS (some 17) 18).isValid = true ∧
    c3Result.success = (coOptions.continueOnError || c3Result.steps.all (·.success)) :=
  ⟨by rfl,
   migrate_success_iff_continueOnError_or_no_failure trivialHeuristics
     ANGULAR_MIGRATIONS failedInstallExec true "backup-dir" (some 17) 18
     coOptions c3Result (by rfl) (by rfl)⟩

/-- C3 counterexample: a run with `continueOnError` whose single executed
step failed (its install outcome failed) still reports run-level
`success = true`, contradicting the claim that `success` is `true` iff no
executed step failed regardless of `continueOnError`. -/
theorem migrate_reports_success_despite_failed_step :
    migrate trivialHeuristics ANGULAR_MIGRATIONS failedInstallExec true
      "backup-dir" (some 17) 18 coOptions = Except.ok c3Result ∧
    c3Result.success = true ∧
    c3Result.steps.map (·.success) = [false] :=
  ⟨rfl, rfl, by decide⟩

/-- When every adjacency in the window is present, the chain loop returns
exactly `n` consecutive steps. -/
theorem getMigrationChainGo_ok (migrations : List MigrationPath) :
    ∀ (n current : Nat),
      (∀ v, current ≤ v → v < current + n →
        (getMigrationPath migrations v (v + 1)).isSome = true) →
      ∃ chain, getMigrationChainGo migrations current n = Except.ok chain ∧
        chain.length = n ∧
        ∀ i, (hi : i < chain.length) →
          (chain.get ⟨i, hi⟩).fromVer = current + i ∧
          (chain.get ⟨i, hi⟩).toVer = current + i + 1 := by
  intro n
  induction n with
  | zero =>
      intro current _
      exact ⟨[], rfl, rfl, fun i hi => absurd hi (by simp)⟩
  | succ m ih =>
      intro current hall
      have h0 : (getMigrationPath migrations current (current + 1)).isSome = true :=
        hall current (Nat.le_refl _) (by omega)
      rcases Option.isSome_iff_exists.mp h0 with ⟨mig, hmig⟩
      have hpred := List.find?_some hmig
      simp only [Bool.and_eq_true, beq_iff_eq] at hpred
      rcases ih (current + 1) (fun v h1 h2 => hall v (by omega) (by omega)) with
        ⟨chain, hchain, hlen, hget⟩
      refine ⟨mig :: chain, ?_, by simp [hlen], ?_⟩
      · simp [getMigrationChainGo, hmig, hchain]
      · intro i hi
        cases i with
        | zero => simpa using ⟨hpred.1, hpred.2⟩
        | succ j =>
            have hj : j < chain.length := by
              simpa using Nat.lt_of_succ_lt_succ (by simpa using hi)
            have hgj := hget j hj
            refine ⟨?_, ?_⟩
            · simpa [Nat.add_assoc, Nat.add_comm, Nat.add_left_comm] using hgj.1
            · simpa [Nat.add_assoc, Nat.add_comm, Nat.add_left_comm] using hgj.2
  
/-- A missing adjacency in the window makes the chain loop fail with the
no-path error for a missing adjacency, returning no partial chain. -/
theorem getMigrationChainGo_error (migrations : List MigrationPath) :
    ∀ (n current : Nat),
      (∃ v, current ≤ v ∧ v < current + n ∧
        getMigrationPath migrations v (v + 1) = none) →
      ∃ v, current ≤ v ∧ v < current + n ∧
        getMigrationPath migrations v (v + 1) = none ∧
        getMigrationChainGo migrations current n =
          Except.error (noPathMessage v) := by
  intro n
  induction n with
  | zero =>
      intro current h
      rcases h with ⟨v, h1, h2, -⟩
      exact absurd h2 (by omega)
  | succ m ih =>
      intro current h
      cases hm : getMigrationPath migrations current (current + 1) with
      | none =>
          exact ⟨current, Nat.le_refl _, by omega, hm,
            by simp [getMigrationChainGo, hm]⟩
      | some mig =>
          rcases h with ⟨v, h1, h2, h3⟩
          have hv1 : current + 1 ≤ v := by
            rcases Nat.eq_or_lt_of_le h1 with heq | hlt
            · exact absurd (heq ▸ h3) (by simp [hm])
            · exact hlt
          rcases ih (current + 1) ⟨v, hv1, by omega, h3⟩ with
            ⟨w, hw1, hw2, hw3, hw4⟩
          refine ⟨w, by omega, by omega, hw3, ?_⟩
          simp [getMigrationChainGo, hm, hw4]

/-- C4 (confirmed): for `from < to`, when every adjacent pair in
`[from, to)` has a table entry, `getMigrationChain` returns exactly
`to - from` steps whose `(from, to)` pairs are consecutive and strictly
increasing; when some adjacency is missing it throws the error naming a
missing adjacency and returns no partial chain. -/
theorem getMigrationChain_builds_full_chain_or_fails
    (migrations : List MigrationPath) (src dst : Nat) (hlt : src < dst) :
    ((∀ v, src ≤ v → v < dst →
        (getMigrationPath migrations v (v + 1)).isSome = true) →
      ∃ chain, getMigrationChain migrations src dst = Except.ok chain ∧
        chain.length = dst - src ∧
        ∀ i, (hi : i < chain.length) →
          (chain.get ⟨i, hi⟩).fromVer = src + i ∧
          (chain.get ⟨i, hi⟩).toVer = src + i + 1) ∧
    ((∃ v, src ≤ v ∧ v < dst ∧
        getMigrationPath migrations v (v + 1) = none) →
      ∃ v, src ≤ v ∧ v < dst ∧
        getMigrationPath migrations v (v + 1) = none ∧
        getMigrationChain migrations src dst =
          Except.error (noPathMessage v)) := by
  constructor
  · intro hall
    rcases getMigrationChainGo_ok migrations (dst - src) src
      (fun v h1 h2 => hall v h1 (by omega)) with ⟨chain, hc, hlen, hget⟩
    exact ⟨chain, hc, hlen, hget⟩
  · rintro ⟨v, h1, h2, h3⟩
    rcases getMigrationChainGo_error migrations (dst - src) src
      ⟨v, h1, by omega, h3⟩ with ⟨w, hw1, hw2, hw3, hw4⟩
    exact ⟨w, hw1, by omega, hw3, hw4⟩

/-- C4 witness for `getMigrationChain_builds_full_chain_or_fails`: the table
covers 17→20, and 17→21 fails with the error naming the missing 20→21
adjacency. -/
theorem getMigrationChain_builds_full_chain_witness :
    (17 : Nat) < 20 ∧
    (getMigrationChain ANGULAR_MIGRATIONS 17 20).isOk = true ∧
    getMigrationChain ANGULAR_MIGRATIONS 17 21 =
      Except.error (noPathMessage 20) := by
  refine ⟨by decide, ?_, by rfl⟩
  rcases (getMigrationChain_builds_full_chain_or_fails ANGULAR_MIGRATIONS
    17 20 (by decide)).1 (by intro v h1 h2; interval_cases v <;> decide) with
    ⟨chain, hc, -, -⟩
  rw [hc]
  rfl

/-- C5 (confirmed): the retry policy of `installDependenciesWithRetry`.  A
successful first install performs one attempt and nothing else.  A first
failure of the dependency-resolution class (message containing `ERESOLVE` or
`peer dep`) triggers exactly one recovery cycle — purge (`node_modules` and
all known lock files removed) followed by a single retry — and the retry's
failure is terminal: its error is rethrown, with two install attempts in
total and no further retries.  A first failure of any other class is rethrown
directly with no cleanup and no retry. -/
theorem installDependenciesWithRetry_policy (attempt2 : Option String)
    (msg : String) (fs : ProjectFiles) :
    (installDependenciesWithRetry none attempt2 fs =
      { actions := [InstallAction.installAttempt]
        fsState := fs
        errors := []
        thrown := none }) ∧
    (isResolutionClassError msg = true →
      (installDependenciesWithRetry (some msg) attempt2 fs).actions =
        [InstallAction.installAttempt, InstallAction.cleanup,
         InstallAction.installAttempt] ∧
      (installDependenciesWithRetry (some msg) attempt2 fs).fsState =
        cleanNodeModules fs ∧
      (installDependenciesWithRetry (some msg) attempt2 fs).thrown = attempt2 ∧
      (cleanNodeModules fs).nodeModules = false ∧
      ∀ f ∈ lockFileNames, f ∉ (cleanNodeModules fs).lockFiles) ∧
    (isResolutionClassError msg = false →
      installDependenciesWithRetry (some msg) attempt2 fs =
        { actions := [InstallAction.installAttempt]
          fsState := fs
          errors := [installFailureMessage msg]
          thrown := some msg }) ∧
    ((installDependenciesWithRetry (some msg) attempt2 fs).actions.count
      InstallAction.installAttempt ≤ 2) := by
  refine ⟨rfl, ?_, ?_, ?_⟩
  · intro hclass
    have hlock : ∀ f ∈ lockFileNames, f ∉ (cleanNodeModules fs).lockFiles := by
      intro f hf hmem
      simp only [lockFileNames] at hf
      fin_cases hf <;>
        simp [cleanNodeModules, List.mem_filter, lockFileNames] at hmem
    cases attempt2 with
    | none => exact ⟨by simp [installDependenciesWithRetry, hclass],
        by simp [installDependenciesWithRetry, hclass],
        by simp [installDependenciesWithRetry, hclass], rfl, hlock⟩
    | some msg2 => exact ⟨by simp [installDependenciesWithRetry, hclass],
        by simp [installDependenciesWithRetry, hclass],
        by simp [installDependenciesWithRetry, hclass], rfl, hlock⟩
  · intro hclass
    simp [installDependenciesWithRetry, hclass]
  · cases hclass : isResolutionClassError msg with
    | false => simp [installDependenciesWithRetry, hclass]
    | true =>
        cases attempt2 with
        | none => simp [installDependenciesWithRetry, hclass]
        | some msg2 => simp [installDependenciesWithRetry, hclass]

/-- C5 witness for `installDependenciesWithRetry_policy`: a concrete
`ERESOLVE` failure followed by a failing retry. -/
theorem installDependenciesWithRetry_policy_witness :
    isResolutionClassError "npm ERESOLVE unable to resolve dependency tree" = true ∧
    (installDependenciesWithRetry
      (some "npm ERESOLVE unable to resolve dependency tree")
      (some "npm ERESOLVE again")
      { nodeModules := true
        lockFiles := ["package-lock.json", "README.md"] }).actions =
      [InstallAction.installAttempt, InstallAction.cleanup,
       InstallAction.installAttempt] ∧
    (installDependenciesWithRetry
      (some "npm ERESOLVE unable to resolve dependency tree")
      (some "npm ERESOLVE again")
      { nodeModules := true
        lockFiles := ["package-lock.json", "README.md"] }).thrown =
      some "npm ERESOLVE again" := by
  have h := installDependenciesWithRetry_policy (some "npm ERESOLVE again")
    "npm ERESOLVE unable to resolve dependency tree"
    { nodeModules := true, lockFiles := ["package-lock.json", "README.md"] }
  have hclass : isResolutionClassError
      "npm ERESOLVE unable to resolve dependency tree" = true := by decide
  exact ⟨hclass, (h.2.1 hclass).1, (h.2.1 hclass).2.2.1⟩

/-- The final assignment in `executeMigrationStep` leaves exactly the
breaking-change issues of the step's migration, whatever was collected
before. -/
theorem finalizeStep_issues (step : MigrationStep)
    (codemodResults : List CodeChange) (options : MigrationOptions) :
    (finalizeStep step codemodResults options).issues =
      breakingChangeIssues step.migration step.stepNumber := by
  simp only [finalizeStep]
  split <;> rfl

/-- The dependency-recording tail of the step preserves the final
issue-assignment behaviour. -/
theorem executeStepDeps_issues (cr : Option ConflictResolution)
    (updateResult : DependencyUpdateResult) (codemodResults : List CodeChange)
    (options : MigrationOptions) (step : MigrationStep) :
    (executeStepDeps cr updateResult codemodResults options step).issues =
      breakingChangeIssues step.migration step.stepNumber := by
  rcases cr with - | c
  · simp only [executeStepDeps]
    rw [finalizeStep_issues]
  · simp only [executeStepDeps]
    rw [finalizeStep_issues]
    split <;> rfl

/-- Whenever the step does not take one of its peer-conflict early returns,
the returned issue list is exactly the breaking-change issue list. -/
theorem executeMigrationStep_issues_eq (reg : Registry) (pm : PMName)
    (installed : String → Option Nat) (pkg : PackageJson)
    (updateResult : DependencyUpdateResult) (codemodResults : List CodeChange)
    (migration : MigrationPath) (stepNumber : Nat)
    (options : MigrationOptions)
    (hne : stepEarlyReturns reg pm installed pkg migration options = false) :
    (executeMigrationStep reg pm installed pkg updateResult codemodResults
      migration stepNumber options).issues =
      breakingChangeIssues migration stepNumber := by
  simp only [executeMigrationStep]
  simp only [stepEarlyReturns] at hne
  split
  · rw [finalizeStep_issues]
  · rename_i hskip
    rw [if_neg hskip] at hne
    split
    · rename_i hrp
      rw [if_pos hrp] at hne
      split
      · rename_i hc
        rw [if_pos hc] at hne
        split
        · rename_i hauto
          rw [if_pos hauto] at hne
          split
          · rename_i hfail
            rw [hne] at hfail
            exact absurd hfail (by decide)
          · rw [executeStepDeps_issues]
        · rename_i hauto
          rw [if_neg hauto] at hne
          split
          · rename_i hallow
            rw [hne] at hallow
            exact absurd hallow (by decide)
          · rw [executeStepDeps_issues]
      · rename_i hc
        rw [if_neg hc] at hne
        rw [executeStepDeps_issues]
    · rw [executeStepDeps_issues]

/-- C6 (corrected): whenever `executeMigrationStep` does not take one of its
peer-conflict early returns — in particular including runs whose
`updateDependencies` install outcome failed — every breaking change declared
in the step's spec that is not auto-fixable appears in the returned step's
issues, with severity `error` for high impact and `warning` otherwise.  (When
conflict handling fails and the step returns early, the issue list is empty,
as the counterexample shows.) -/
theorem executeMigrationStep_surfaces_breaking_changes (reg : Registry)
    (pm : PMName) (installed : String → Option Nat) (pkg : PackageJson)
    (updateResult : DependencyUpdateResult) (codemodResults : List CodeChange)
    (migration : MigrationPath) (stepNumber : Nat)
    (options : MigrationOptions)
    (hne : stepEarlyReturns reg pm installed pkg migration options = false) :
    ∀ change ∈ migration.breakingChanges, change.autoFixable = false →
      ({ id := change.id
         severity :=
           if change.impact = Impact.high then IssueSeverity.error
           else IssueSeverity.warning
         category := "breaking-change"
         title := change.description
         description :=
           if change.manualSteps.isEmpty then "Manual intervention required"
           else String.intercalate "\n" change.manualSteps
         autoFixable := false
         migrationStep := some stepNumber } : MigrationIssue) ∈
        (executeMigrationStep reg pm installed pkg updateResult
          codemodResults migration stepNumber options).issues := by
  intro change hmem hauto
  rw [executeMigrationStep_issues_eq reg pm installed pkg updateResult
    codemodResults migration stepNumber options hne]
  unfold breakingChangeIssues
  exact List.mem_map.mpr
    ⟨change, List.mem_filter.mpr ⟨hmem, by simp [hauto]⟩, rfl⟩

/-- C6 witness for `executeMigrationStep_surfaces_breaking_changes`: a step
with a failed install outcome still surfaces the non-auto-fixable breaking
change as an error-severity issue. -/
theorem executeMigrationStep_surfaces_breaking_changes_witness :
    stepEarlyReturns trivialRegistry PMName.npm instNone emptyPkg mFix
      defaultOptions = false ∧
    bcManual ∈ mFix.breakingChanges ∧
    (executeMigrationStep trivialRegistry PMName.npm instNone emptyPkg
      failedUpdateResult [] mFix 1 defaultOptions).dependencies =
      some failedUpdateResult ∧
    ({ id := "fixture-manual-change"
       severity := IssueSeverity.error
       category := "breaking-change"
       title := "Update the theme configuration"
       description := "Update the theme configuration by hand"
       autoFixable := false
       migrationStep := some 1 } : MigrationIssue) ∈
      (executeMigrationStep trivialRegistry PMName.npm instNone emptyPkg
        failedUpdateResult [] mFix 1 defaultOptions).issues := by
  refine ⟨by decide, by decide, by decide, ?_⟩
  exact executeMigrationStep_surfaces_breaking_changes trivialRegistry
    PMName.npm instNone emptyPkg failedUpdateResult [] mFix 1 defaultOptions
    (by decide) bcManual (by decide) (by decide)

/-- C6 counterexample: with an unresolvable conflict (pnpm cannot use
overrides, so the strategy is `manual`) and overrides not allowed, the step
early-returns: `success = false` and the returned issue list is empty even
though the spec declares a non-auto-fixable breaking change — contradicting
the claim that breaking-change issues appear even when conflict handling
fails. -/
theorem executeMigrationStep_early_return_drops_breaking_issues :
    (executeMigrationStep regC PMName.pnpm instNone pkgO okUpdateResult []
      mFix 1 defaultOptions).issues = [] ∧
    (executeMigrationStep regC PMName.pnpm instNone pkgO okUpdateResult []
      mFix 1 defaultOptions).success = false ∧
    (mFix.breakingChanges.filter fun c => !c.autoFixable) = [bcManual] :=
  ⟨by decide, by decide, by decide⟩

/-- C10 (confirmed): for every step that reaches the final issue assignment
(no early return), the returned issue list is exactly the breaking-change
issue list — the assignment replaces, rather than appends to, the
peer-conflict issues pushed earlier — so every returned issue has category
`breaking-change` and none of the issues produced by
`convertConflictsToIssues` appears in the returned step. -/
theorem executeMigrationStep_issue_list_replaced (reg : Registry)
    (pm : PMName) (installed : String → Option Nat) (pkg : PackageJson)
    (updateResult : DependencyUpdateResult) (codemodResults : List CodeChange)
    (migration : MigrationPath) (stepNumber : Nat)
    (options : MigrationOptions)
    (hne : stepEarlyReturns reg pm installed pkg migration options = false) :
    (executeMigrationStep reg pm installed pkg updateResult codemodResults
      migration stepNumber options).issues =
      breakingChangeIssues migration stepNumber ∧
    ∀ i ∈ (executeMigrationStep reg pm installed pkg updateResult
        codemodResults migration stepNumber options).issues,
      i.category = "breaking-change" ∧
      i ∉ convertConflictsToIssues
        (analyzePeerDependencyConflicts reg pm installed migration pkg)
        stepNumber := by
  have heq := executeMigrationStep_issues_eq reg pm installed pkg updateResult
    codemodResults migration stepNumber options hne
  refine ⟨heq, ?_⟩
  intro i hi
  rw [heq] at hi
  unfold breakingChangeIssues at hi
  rcases List.mem_map.mp hi with ⟨change, -, hchange⟩
  have hcat : i.category = "breaking-change" := by rw [← hchange]
  refine ⟨hcat, ?_⟩
  intro hconv
  unfold convertConflictsToIssues at hconv
  rcases List.mem_map.mp hconv with ⟨conflict, -, hconflict⟩
  have hdep : i.category = "dependency" := by rw [← hconflict]
  rw [hcat] at hdep
  exact absurd hdep (by decide)

/-- C10 witness for `executeMigrationStep_issue_list_replaced`: the npm run
of the conflict fixture auto-resolves (strategy `overrides`), takes no early
return, produces a non-empty `convertConflictsToIssues` list, and still
returns only breaking-change issues. -/
theorem executeMigrationStep_issue_list_replaced_witness :
    stepEarlyReturns regC PMName.npm instNone pkgO mFix defaultOptions =
      false ∧
    (convertConflictsToIssues
      (analyzePeerDependencyConflicts regC PMName.npm instNone mFix pkgO)
      1).length = 1 ∧
    ((executeMigrationStep regC PMName.npm instNone pkgO okUpdateResult []
      mFix 1 defaultOptions).issues.all
        fun i => i.category == "breaking-change") = true := by
  refine ⟨by decide, by decide, ?_⟩
  apply List.all_eq_true.mpr
  intro i hi
  have h := (executeMigrationStep_issue_list_replaced regC PMName.npm
    instNone pkgO okUpdateResult [] mFix 1 defaultOptions (by decide)).2 i hi
  simpa using h.1

/-- C7 (corrected): when project backup creation fails, the run proceeds to
execute the full step loop, but the result's `backupPath` is the empty
string returned by `createProjectBackup` (the field is present, not absent),
and the only record of the failure is a console warning: `migrate` adds no
issue anywhere — the result's steps are exactly the executor's output. -/
theorem migrate_backup_failure_proceeds (h : AnalysisHeuristics)
    (migrations : List MigrationPath)
    (exec : MigrationPath → Nat → MigrationStep) (backupDir : String)
    (currentAngularVersion : Option Nat) (targetVersion : Nat)
    (options : MigrationOptions) (r : MigrationResult) (cur : Nat)
    (chain : List MigrationPath)
    (hopt : options.createBackup = true)
    (hvalid : (analyzeMigration h migrations currentAngularVersion
      targetVersion).isValid = true)
    (hcur : (analyzeMigration h migrations currentAngularVersion
      targetVersion).currentVersion = some cur)
    (hchain : getMigrationChain migrations cur targetVersion =
      Except.ok chain)
    (hrun : migrate h migrations exec false backupDir currentAngularVersion
      targetVersion options = Except.ok r) :
    r.backupPath = some "" ∧
    r.steps = (migrateLoop exec options.continueOnError chain 0).1 := by
  simp only [migrate, hcur, hvalid, hchain] at hrun
  simp only [Except.ok.injEq] at hrun
  subst hrun
  exact ⟨by simp [hopt, createProjectBackup], rfl⟩

/-- C7 witness for `migrate_backup_failure_proceeds`. -/
theorem migrate_backup_failure_proceeds_witness :
    defaultOptions.createBackup = true ∧
    (analyzeMigration trivialHeuristics [mPlain] (some 17) 18).isValid = true ∧
    c7Result.backupPath = some "" ∧
    c7Result.steps =
      (migrateLoop plainExec defaultOptions.continueOnError [mPlain] 0).1 := by
  have h := migrate_backup_failure_proceeds trivialHeuristics [mPlain]
    plainExec "backup-dir" (some 17) 18 defaultOptions c7Result 17 [mPlain]
    rfl (by rfl) (by rfl) (by rfl) (by rfl)
  exact ⟨rfl, by rfl, h.1, h.2⟩

/-- C7 counterexample: a run whose backup copy failed proceeds (one step is
executed) and returns `backupPath` present as the empty string, with no
issue anywhere in the result — in particular no warning-severity issue
documenting degraded rollback capability, contradicting the claim. -/
theorem migrate_backup_failure_counterexample :
    migrate trivialHeuristics [mPlain] plainExec false "backup-dir"
      (some 17) 18 defaultOptions = Except.ok c7Result ∧
    c7Result.backupPath = some "" ∧
    c7Result.steps.length = 1 ∧
    c7Result.steps.flatMap (·.issues) = [] :=
  ⟨rfl, rfl, rfl, by decide⟩

/-- C8 (corrected): when the target equals the detected current version, and
likewise when the target is below it, `migrate` returns zero steps with
`success = false` before any backup (`backupPath` is absent); the
already-at-target `info` issue and the downgrade-not-supported `error` issue
are produced in the `MigrationAnalysis` of `analyzeMigration`, but the
`MigrationResult` returned by `migrate` has no issue list and carries
neither. -/
theorem migrate_rejects_noop_and_downgrade (h : AnalysisHeuristics)
    (migrations : List MigrationPath)
    (exec : MigrationPath → Nat → MigrationStep) (backupOk : Bool)
    (backupDir : String) (cur targetVersion : Nat)
    (options : MigrationOptions) :
    (cur = targetVersion →
      migrate h migrations exec backupOk backupDir (some cur) targetVersion
          options =
        Except.ok
          { success := false
            fromVersion := cur
            toVersion := targetVersion
            steps := []
            summary := emptySummary
            backupPath := none } ∧
      (analyzeMigration h migrations (some cur) targetVersion).issues =
        [sameVersionIssue targetVersion] ∧
      (sameVersionIssue targetVersion).severity = IssueSeverity.info) ∧
    (targetVersion < cur →
      migrate h migrations exec backupOk backupDir (some cur) targetVersion
          options =
        Except.ok
          { success := false
            fromVersion := cur
            toVersion := targetVersion
            steps := []
            summary := emptySummary
            backupPath := none } ∧
      (analyzeMigration h migrations (some cur) targetVersion).issues =
        [downgradeIssue cur targetVersion] ∧
      (downgradeIssue cur targetVersion).severity = IssueSeverity.error) := by
  constructor
  · intro heq
    subst heq
    have hA : analyzeMigration h migrations (some cur) cur =
        { isValid := false
          currentVersion := some cur
          targetVersion := cur
          migrationPath := []
          issues := [sameVersionIssue cur]
          recommendations := ["No migration needed"]
          estimatedComplexity := "low"
          estimatedTimeHours := 0 } := by
      simp [analyzeMigration]
    refine ⟨?_, by rw [hA], rfl⟩
    simp only [migrate, hA]
    rfl
  · intro hlt
    have hne : ¬(cur = targetVersion) := by omega
    have hA : analyzeMigration h migrations (some cur) targetVersion =
        { isValid := false
          currentVersion := some cur
          targetVersion := targetVersion
          migrationPath := []
          issues := [downgradeIssue cur targetVersion]
          recommendations :=
            ["Consider creating a new project with the target version"]
          estimatedComplexity := "high"
          estimatedTimeHours := 0 } := by
      simp [analyzeMigration, hne, hlt]
    refine ⟨?_, by rw [hA], rfl⟩
    simp only [migrate, hA]
    rfl

/-- C8 witness for `migrate_rejects_noop_and_downgrade`. -/
theorem migrate_rejects_noop_and_downgrade_witness :
    migrate trivialHeuristics ANGULAR_MIGRATIONS plainExec true "backup-dir"
        (some 18) 18 defaultOptions =
      Except.ok
        { success := false
          fromVersion := 18
          toVersion := 18
          steps := []
          summary := emptySummary
          backupPath := none } ∧
    migrate trivialHeuristics ANGULAR_MIGRATIONS plainExec true "backup-dir"
        (some 19) 18 defaultOptions =
      Except.ok
        { success := false
          fromVersion := 19
          toVersion := 18
          steps := []
          summary := emptySummary
          backupPath := none } :=
  ⟨((migrate_rejects_noop_and_downgrade trivialHeuristics ANGULAR_MIGRATIONS
      plainExec true "backup-dir" 18 18 defaultOptions).1 rfl).1,
   ((migrate_rejects_noop_and_downgrade trivialHeuristics ANGULAR_MIGRATIONS
      plainExec true "backup-dir" 19 18 defaultOptions).2 (by decide)).1⟩

/-- C8 counterexample: for target = current = 18 the returned
`MigrationResult` is exactly the zero-step failure record with no issue
content anywhere — the info-severity already-at-target issue exists only in
the `MigrationAnalysis`, not in the result `migrate` returns, contradicting
the claim that the returned result carries it. -/
theorem migrate_noop_result_carries_no_issue :
    migrate trivialHeuristics ANGULAR_MIGRATIONS plainExec true "backup-dir"
        (some 18) 18 defaultOptions =
      Except.ok
        { success := false
          fromVersion := 18
          toVersion := 18
          steps := []
          summary := emptySummary
          backupPath := none } ∧
    (({ success := false
        fromVersion := 18
        toVersion := 18
        steps := []
        summary := emptySummary
        backupPath := none } : MigrationResult).steps.flatMap (·.issues)) =
      [] ∧
    (analyzeMigration trivialHeuristics ANGULAR_MIGRATIONS (some 18) 18).issues =
      [sameVersionIssue 18] :=
  ⟨rfl, rfl, rfl⟩

/-- Conflict analysis reads only the `dependencies` and `devDependencies`
maps of the manifest: manifests agreeing there analyze identically (the
`overrides`/`resolutions` blocks are never consulted). -/
theorem analyzePeerDependencyConflicts_congr (reg : Registry) (pm : PMName)
    (installed : String → Option Nat) (migration : MigrationPath)
    (p q : PackageJson) (h1 : p.dependencies = q.dependencies)
    (h2 : p.devDependencies = q.devDependencies) :
    analyzePeerDependencyConflicts reg pm installed migration p =
      analyzePeerDependencyConflicts reg pm installed migration q := by
  simp only [analyzePeerDependencyConflicts, h1, h2]

/-- The dependency-update fold leaves the manifest untouched when every
updated package is declared in neither dependency map. -/
theorem foldl_applyDependencyUpdate_deps :
    ∀ (upds : List (String × Nat)) (st : PackageJson × List String),
      (∀ u ∈ upds, st.1.dependencies.lookup u.1 = none ∧
        st.1.devDependencies.lookup u.1 = none) →
      (upds.foldl applyDependencyUpdate st).1.dependencies =
          st.1.dependencies ∧
        (upds.foldl applyDependencyUpdate st).1.devDependencies =
          st.1.devDependencies := by
  intro upds
  induction upds with
  | nil => intro st _; exact ⟨rfl, rfl⟩
  | cons u rest ih =>
      intro st hall
      have hu := hall u (List.mem_cons_self u rest)
      have hstep : applyDependencyUpdate st u = st := by
        simp [applyDependencyUpdate, hu.1, hu.2]
      rw [List.foldl_cons, hstep]
      exact ih st fun v hv => hall v (List.mem_cons_of_mem u hv)

/-- Applying an auto-resolvable resolution whose dependency updates touch no
declared dependency leaves both dependency maps of the manifest unchanged
(overrides and yarn resolutions land in their own blocks). -/
theorem resolve_preserves_dependencies (pm : PMName)
    (resolution : ConflictResolution) (pkg : PackageJson)
    (hauto : resolution.canAutoResolve = true)
    (hdisj : ∀ u ∈ resolution.dependencyUpdates,
      pkg.dependencies.lookup u.1 = none ∧
      pkg.devDependencies.lookup u.1 = none) :
    (resolvePeerDependencyConflicts pm resolution pkg).2.dependencies =
        pkg.dependencies ∧
      (resolvePeerDependencyConflicts pm resolution pkg).2.devDependencies =
        pkg.devDependencies := by
  have hfold := foldl_applyDependencyUpdate_deps
    resolution.dependencyUpdates (pkg, []) hdisj
  simp only [resolvePeerDependencyConflicts, hauto, Bool.not_true,
    Bool.false_eq_true, if_false]
  constructor
  · split <;> split <;> exact hfold.1
  · split <;> split <;> exact hfold.2

/-- C9 (corrected): conflict analysis is *not* idempotent under its own
resolution in general; what holds is that applying an auto-resolvable
resolution whose dependency updates touch no declared dependency (for
instance when all resolutions are overrides) leaves re-analysis literally
unchanged: the same conflicts are reported again, because competing
requirements are judged by intersecting declared peer ranges, which the
applied updates and overrides do not affect.  Re-analysis therefore yields
zero conflicts only if the first analysis already did. -/
theorem analyzePeerDependencyConflicts_unchanged_after_resolve
    (reg : Registry) (pm : PMName) (installed : String → Option Nat)
    (migration : MigrationPath) (pkg : PackageJson)
    (hauto : (analyzePeerDependencyConflicts reg pm installed migration
      pkg).canAutoResolve = true)
    (hdisj : ∀ u ∈ (analyzePeerDependencyConflicts reg pm installed migration
        pkg).dependencyUpdates,
      pkg.dependencies.lookup u.1 = none ∧
      pkg.devDependencies.lookup u.1 = none) :
    analyzePeerDependencyConflicts reg pm installed migration
      ((resolvePeerDependencyConflicts pm
        (analyzePeerDependencyConflicts reg pm installed migration pkg)
        pkg).2) =
      analyzePeerDependencyConflicts reg pm installed migration pkg := by
  have hp := resolve_preserves_dependencies pm
    (analyzePeerDependencyConflicts reg pm installed migration pkg) pkg
    hauto hdisj
  exact analyzePeerDependencyConflicts_congr reg pm installed migration _ _
    hp.1 hp.2

/-- C9 witness for
`analyzePeerDependencyConflicts_unchanged_after_resolve`: in the override
fixture, re-analysis after applying the resolution is literally the original
analysis (which has one conflict). -/
theorem analyzePeerDependencyConflicts_unchanged_witness :
    (analyzePeerDependencyConflicts regC PMName.npm instNone mFix
      pkgO).canAutoResolve = true ∧
    (analyzePeerDependencyConflicts regC PMName.npm instNone mFix
      pkgO).conflicts.length = 1 ∧
    analyzePeerDependencyConflicts regC PMName.npm instNone mFix
      ((resolvePeerDependencyConflicts PMName.npm
        (analyzePeerDependencyConflicts regC PMName.npm instNone mFix pkgO)
        pkgO).2) =
      analyzePeerDependencyConflicts regC PMName.npm instNone mFix pkgO := by
  refine ⟨by decide, by decide, ?_⟩
  apply analyzePeerDependencyConflicts_unchanged_after_resolve
  · decide
  · intro u hu
    rw [show (analyzePeerDependencyConflicts regC PMName.npm instNone mFix
      pkgO).dependencyUpdates = [] from by decide] at hu
    exact absurd hu (List.not_mem_nil u)

/-- C9 counterexample: the override fixture's resolution is auto-resolvable
(`canAutoResolve = true`), yet after `resolvePeerDependencyConflicts`
applies it, running `analyzePeerDependencyConflicts` on the resulting
manifest still reports one conflict, not zero — the claimed idempotence
fails. -/
theorem analyzePeerDependencyConflicts_not_idempotent :
    (analyzePeerDependencyConflicts regC PMName.npm instNone mFix
      pkgO).canAutoResolve = true ∧
    ((analyzePeerDependencyConflicts regC PMName.npm instNone mFix
      ((resolvePeerDependencyConflicts PMName.npm
        (analyzePeerDependencyConflicts regC PMName.npm instNone mFix pkgO)
        pkgO).2)).conflicts).length = 1 :=
  ⟨by decide, by decide⟩
